import Mathlib

/-!
Verification of the data ingestion, time-normalization and summarization
engine of `engine_test_data_explorer.py`.

The embedding models the pandas-based core faithfully:

* A raw table cell is characterized by what the two pandas parsers do with
  it: `pd.to_datetime` (timestamp path) and `pd.to_numeric` (numeric path).
  A cell is either a missing field (read as NaN by `read_csv`) or a string
  whose timestamp-parse outcome and numeric-parse outcome are recorded.
  Timestamps are measured in (rational) seconds since an epoch, so that
  `(t - t0).dt.total_seconds()` is plain subtraction.
* A parsed table (`pd.DataFrame`) is an ordered association of column
  names to cell sequences together with its row count `len(df)`.
* A file on disk is modelled by its display path and by the outcome of
  running `pd.read_csv` on it (full read, and the `nrows=10` sampling
  read) for a given decimal separator; the outcome is `Except`, matching
  the Python exception behaviour.
* Metric values are exact: means/medians are rationals, the sample
  standard deviation is a real number (a square root).
-/

/-- One cell of a tab-separated file, characterized by its parse outcomes.
`missing` is an empty field (NaN after `read_csv`): `pd.to_datetime` maps it
to NaT and `pd.to_numeric` keeps it missing, neither parser raises on it.
`entry ts num` is a string field: `ts` is the result of `pd.to_datetime`
(in seconds since the epoch, `none` when the parse raises) and `num` the
result of coercing it with `pd.to_numeric` (`none` when that raises, or
yields NaN under `errors="coerce"`). -/
inductive Cell where
  | missing : Cell
  | entry (ts : Option ℚ) (num : Option ℚ) : Cell
deriving DecidableEq

/-- Outcome of `pd.to_datetime` on one cell, NaT (`none`) for a missing field. -/
def cellTs : Cell → Option ℚ
  | .missing => none
  | .entry ts _ => ts

/-- Outcome of `pd.to_numeric(..., errors="coerce")` on one cell. -/
def cellNum : Cell → Option ℚ
  | .missing => none
  | .entry _ n => n

/-- Whether `pd.to_datetime` accepts the cell without raising
(missing fields become NaT without raising). -/
def tsOkCell : Cell → Bool
  | .missing => true
  | .entry ts _ => ts.isSome

/-- A parsed table: the header row with each column's cells, plus the row
count `len(df)`. -/
structure Table where
  columns : List (String × List Cell)
  nrows : ℕ
deriving DecidableEq

/-- The header (`df.columns`). -/
def Table.colNames (t : Table) : List String := t.columns.map Prod.fst

/-- Membership test `c in df.columns`. -/
def Table.hasCol (t : Table) (c : String) : Bool := t.colNames.contains c

/-- Column access `df[c]` (empty when the column is absent; the source only
uses it behind an `in df.columns` guard or inside `try`). -/
def Table.getCol (t : Table) (c : String) : List Cell :=
  ((t.columns.find? (fun p => p.1 == c)).map Prod.snd).getD []

/-- `os.path.basename` for slash-separated paths: the part of the path
after the last separator. -/
def basename (p : String) : String :=
  String.mk ((p.data.reverse.takeWhile (fun c => c != '/')).reverse)

/-- A data file offered to the loader: its filesystem path and the outcome
of `pd.read_csv(path, sep=tab, decimal=sep)` as a function of the decimal
separator, both for a full read (`read_csv`) and for the 10-row sampling
read used by column inference (`read_sample`). -/
structure SrcFile where
  name : String
  read_csv : String → Except String Table
  read_sample : String → Except String Table

/-- `load_selected_dataframes` (src lines 540-554). The body of the per-file
`try` evaluates `pd.read_csv(filepath, sep='\t', decimal=decimal_sep)`:
`filepath` is an unbound name in that scope (the loop variable is `f`), so
Python raises `NameError` before touching the file; the `except` clause
catches it and records `basename(f): message` in the error list. The
function therefore loads no file and accumulates one error entry per
selected file. Returns the new cache contents and the error list. -/
def load_selected_dataframes (files : List SrcFile) (decimal_sep : String) :
    List (String × Table) × List String :=
  let _ := decimal_sep
  files.foldl
    (fun acc f =>
      (acc.1, acc.2 ++ [basename f.name ++ ": name filepath is not defined"]))
    ([], [])

/-- The per-file load step the docstring of `load_selected_dataframes`
describes ("Loads all selected files and keeps them in self.loaded_dfs,
with exception handling"): read the file, cache it on success, collect an
error entry on failure. This is the intended reading of src lines 546-551
with the loop variable `f` in place of the unbound `filepath`. -/
def load_selected_dataframes_intended (files : List SrcFile) (decimal_sep : String) :
    List (String × Table) × List String :=
  files.foldl
    (fun acc f =>
      match f.read_csv decimal_sep with
      | .ok df => (acc.1 ++ [(f.name, df)], acc.2)
      | .error e => (acc.1, acc.2 ++ [basename f.name ++ ": " ++ e]))
    ([], [])

/-- Reading `self.decimal_sep_combo` at src line 85: `unique_numeric_columns`
is a module-level function, `self` is unbound there, so the lookup raises
`NameError` before the file loop starts. -/
def self_decimal_sep_combo : Except String String :=
  .error ("NameError: name self is not defined")

/-- Whether `pd.to_numeric(df[c])` (the raising variant, src line 91)
succeeds on a column sample: every non-missing cell must coerce. -/
def numeric_ok (vals : List Cell) : Bool :=
  vals.all (fun c => match c with
    | .missing => true
    | .entry _ n => n.isSome)

/-- `cols.add(c)` on the Python set, modelled as order-of-first-insertion
list without duplicates. -/
def set_add (cols : List String) (c : String) : List String :=
  if cols.contains c then cols else cols ++ [c]

/-- One iteration of the file loop of `unique_numeric_columns`
(src lines 86-96): sample the file with `nrows=10`; on a read error skip the
file; otherwise add every column whose sample coerces numerically. -/
def file_numeric_fold (decimal_sep : String) (cols : List String) (f : SrcFile) :
    List String :=
  match f.read_sample decimal_sep with
  | .error _ => cols
  | .ok df => df.columns.foldl
      (fun cs p => if numeric_ok p.2 then set_add cs p.1 else cs) cols

/-- Lines 86-97 of `unique_numeric_columns`: the union over the files of the
per-sample numeric columns, returned as `sorted(list(cols))`. (In the source
this code is unreachable, see `unique_numeric_columns`.) -/
def unique_numeric_columns_body (decimal_sep : String) (files : List SrcFile) :
    List String :=
  List.insertionSort (· ≤ ·) (files.foldl (file_numeric_fold decimal_sep) [])

/-- `unique_numeric_columns` (src lines 83-97): line 85 reads
`self.decimal_sep_combo.currentText()` with `self` unbound in this
module-level function, so every call raises `NameError` before any file is
read; the loop of lines 86-97 is dead code. -/
def unique_numeric_columns (files : List SrcFile) : Except String (List String) := do
  let decimal_sep ← self_decimal_sep_combo
  pure (unique_numeric_columns_body decimal_sep files)

/-- `extract_datetime_col` (src lines 99-107). The `try` block runs
`pd.to_datetime(df[time_col])`, which raises as soon as one non-missing
value fails to parse as a timestamp; it also raises (`IndexError` on
`t.iloc[0]`) when the column is empty. On success it subtracts the first
entry and converts to seconds (NaT propagates to a missing difference).
Any exception falls back to `pd.to_numeric(df[time_col], errors="coerce")`. -/
def extract_datetime_col (col : List Cell) : List (Option ℚ) :=
  if !col.isEmpty && col.all tsOkCell then
    let t := col.map cellTs
    let t0 := t.headD none
    t.map (fun x =>
      match x, t0 with
      | some a, some b => some (a - b)
      | _, _ => none)
  else
    col.map cellNum

/-- The fixed canonical axis names (src line 467). -/
def axis_names : List String :=
  ["Primary Y", "Secondary Y", "Tertiary Y", "Quaternary Y"]

/-- The axis-binding state kept by the window: the row count of
`axis_table`, the `axis_rows` name list and the `axis_map` pair list
(kept in sync by `init_dynamic_axis_table` / `add_axis_row` /
`remove_axis_row`). -/
structure AxisState where
  rowCount : ℕ
  axis_rows : List String
  axis_map : List (String × String)
deriving DecidableEq

/-- The state after `init_dynamic_axis_table` (src lines 449-460): exactly
one axis slot. -/
def init_axis_state : AxisState :=
  { rowCount := 1, axis_rows := ["Primary Y"], axis_map := [("", "")] }

/-- `add_axis_row` (src lines 462-478): with four rows present the call is
rejected with the warning dialog and returns without touching any state;
otherwise it appends the next canonical name and an empty binding. -/
def add_axis_row (st : AxisState) : Except String AxisState :=
  let n := st.rowCount
  if n ≥ 4 then
    .error ("Maximum 4 Y axes supported.")
  else
    .ok { rowCount := n + 1,
          axis_rows := st.axis_rows ++ [axis_names.getD n ""],
          axis_map := st.axis_map ++ [("", "")] }

/-- `k` successive `add_axis_row` calls, stopping at the first rejection. -/
def addChain (st : AxisState) : ℕ → Except String AxisState
  | 0 => .ok st
  | k + 1 => (add_axis_row st).bind (fun s => addChain s k)

/-- The full state: four named slots, all unbound. -/
def four_slot_state : AxisState :=
  { rowCount := 4,
    axis_rows := ["Primary Y", "Secondary Y", "Tertiary Y", "Quaternary Y"],
    axis_map := [("", ""), ("", ""), ("", ""), ("", "")] }

/-- A time-window bound string, characterized by its parse outcomes:
`empty` when `s.strip()` is empty, else the outcome of `float(s)`
(`asFloat`) and of `pd.to_datetime(s)` (`asDatetime`, epoch seconds).
(Python cannot produce a float from an empty string, so `empty` carries
no outcomes.) -/
inductive TimeStr where
  | empty : TimeStr
  | nonEmpty (asFloat : Option ℚ) (asDatetime : Option ℚ) : TimeStr
deriving DecidableEq

/-- Result of the inner `parse_time` helper (src lines 768-777): `None`,
a float, or a pandas Timestamp. -/
inductive ParsedTime where
  | null : ParsedTime
  | fl (x : ℚ) : ParsedTime
  | dt (t : ℚ) : ParsedTime
deriving DecidableEq

/-- `parse_time` (src lines 768-777): strip; empty gives None; try
`float(s)` first; on failure try `pd.to_datetime(s)`; on failure None. -/
def parse_time (s : TimeStr) : ParsedTime :=
  match s with
  | .empty => .null
  | .nonEmpty f d =>
    match f with
    | some x => .fl x
    | none =>
      match d with
      | some t => .dt t
      | none => .null

/-- The `s if isinstance(s, float) else None` filter of src line 781. -/
def float_only (p : ParsedTime) : Option ℚ :=
  match p with
  | .fl x => some x
  | _ => none

/-- `get_time_window` (src lines 767-781): parse both bound strings and
keep only those that came out as floats. -/
def get_time_window (s e : TimeStr) : Option ℚ × Option ℚ :=
  (float_only (parse_time s), float_only (parse_time e))

/-- Pandas `tsec >= start` on one entry: a missing (NaN) elapsed value
compares false. -/
def geB (t : Option ℚ) (s : ℚ) : Bool :=
  match t with
  | none => false
  | some x => decide (s ≤ x)

/-- Pandas `tsec <= end` on one entry: NaN compares false. -/
def leB (t : Option ℚ) (e : ℚ) : Bool :=
  match t with
  | none => false
  | some x => decide (x ≤ e)

/-- The inclusion mask of the summary loop (src lines 708-712):
`mask = pd.Series([True]*len(df))`, then `mask &= (tsec >= start)` when a
start bound is present and `mask &= (tsec <= end)` when an end bound is. -/
def window_mask (start_ end_ : Option ℚ) (n : ℕ) (tsec : List (Option ℚ)) :
    List Bool :=
  let mask := List.replicate n true
  let mask := match start_ with
    | none => mask
    | some s => List.zipWith (· && ·) mask (tsec.map (fun t => geB t s))
  let mask := match end_ with
    | none => mask
    | some e => List.zipWith (· && ·) mask (tsec.map (fun t => leB t e))
  mask

/-- Row-level reading of the mask: included iff the start bound is absent
or satisfied, and the end bound is absent or satisfied. -/
def inWindow (start_ end_ : Option ℚ) (t : Option ℚ) : Bool :=
  (match start_ with | none => true | some s => geB t s) &&
  (match end_ with | none => true | some e => leB t e)

/-- Boolean-Series indexing `df[col][mask]`: keep the cells at the
positions where the mask is true. -/
def applyMask (vals : List Cell) (mask : List Bool) : List Cell :=
  ((vals.zip mask).filter (fun p => p.2)).map Prod.fst

/-- The non-missing entries of a coerced slice; all pandas reductions
below skip missing values (`skipna`). -/
def filterSome (vals : List (Option ℚ)) : List ℚ :=
  vals.filterMap id

/-- `vals.mean()`: arithmetic mean of the non-missing entries, missing when
there are none. -/
def s_mean (vals : List (Option ℚ)) : Option ℚ :=
  let xs := filterSome vals
  if xs.isEmpty then none else some (xs.sum / xs.length)

/-- `vals.median()`: 50th percentile of the non-missing entries with linear
interpolation for even counts, missing when there are none. -/
def s_median (vals : List (Option ℚ)) : Option ℚ :=
  let xs := List.insertionSort (· ≤ ·) (filterSome vals)
  let n := xs.length
  if n = 0 then none
  else if n % 2 = 1 then some (xs.getD (n / 2) 0)
  else some ((xs.getD (n / 2 - 1) 0 + xs.getD (n / 2) 0) / 2)

/-- `vals.min()`: missing when no non-missing entry exists. -/
def s_min (vals : List (Option ℚ)) : Option ℚ :=
  match filterSome vals with
  | [] => none
  | h :: t => some (t.foldl min h)

/-- `vals.max()`: missing when no non-missing entry exists. -/
def s_max (vals : List (Option ℚ)) : Option ℚ :=
  match filterSome vals with
  | [] => none
  | h :: t => some (t.foldl max h)

/-- `vals.std()`: sample standard deviation (ddof=1) of the non-missing
entries, missing when fewer than two exist. -/
noncomputable def s_std (vals : List (Option ℚ)) : Option ℝ :=
  let xs := filterSome vals
  if xs.length < 2 then none
  else
    let m : ℚ := xs.sum / xs.length
    some (Real.sqrt ((((xs.map (fun x => (x - m) ^ 2)).sum : ℚ) : ℝ) /
      ((xs.length : ℝ) - 1)))

/-- The five summary metrics of the source (`self.custom_metrics`). -/
inductive Metric where
  | mean : Metric
  | median : Metric
  | min : Metric
  | max : Metric
  | std : Metric
deriving DecidableEq

/-- The metric's name string as it appears in the column labels. -/
def metricName : Metric → String
  | .mean => "mean"
  | .median => "median"
  | .min => "min"
  | .max => "max"
  | .std => "std"

/-- One entry of a summary row: the file label, a numeric value, or a
missing value (`np.nan`). -/
inductive SCell where
  | str (s : String) : SCell
  | num (x : ℝ) : SCell
  | na : SCell

/-- Wrap an optional metric value as a summary-row entry. -/
def opt2cell : Option ℝ → SCell
  | none => .na
  | some x => .num x

/-- One `row.append(vals.<mt>() if not vals.empty else np.nan)` step
(src lines 716-726). -/
noncomputable def metric_entry (mt : Metric) (vals : List (Option ℚ)) : SCell :=
  if vals.isEmpty then SCell.na
  else
    match mt with
    | .mean => opt2cell ((s_mean vals).map (fun q => (q : ℝ)))
    | .median => opt2cell ((s_median vals).map (fun q => (q : ℝ)))
    | .min => opt2cell ((s_min vals).map (fun q => (q : ℝ)))
    | .max => opt2cell ((s_max vals).map (fun q => (q : ℝ)))
    | .std => opt2cell (s_std vals)

/-- The per-slot block of a summary row (src lines 714-726):
`vals = pd.to_numeric(df[col][mask], errors="coerce") if col in df.columns
else pd.Series([])`, then one entry per requested metric. -/
noncomputable def slot_entries (df : Table) (mask : List Bool)
    (metric_types : List Metric) (col : String) : List SCell :=
  let vals : List (Option ℚ) :=
    if df.hasCol col then (applyMask (df.getCol col) mask).map cellNum else []
  metric_types.map (fun mt => metric_entry mt vals)

/-- One summary row (src lines 713-726): the file's basename followed by
the per-slot metric entries, in axis order. -/
noncomputable def summary_row (f : String) (df : Table)
    (axis_map : List (String × String)) (metric_types : List Metric)
    (mask : List Bool) : List SCell :=
  SCell.str (basename f) ::
    (axis_map.map (fun p => slot_entries df mask metric_types p.2)).flatten

/-- `self.loaded_dfs.get(f)`. -/
def lookup_df (loaded_dfs : List (String × Table)) (f : String) : Option Table :=
  (loaded_dfs.find? (fun p => p.1 == f)).map Prod.snd

/-- The summary column labels (src lines 729-732 and 819-822): `File`, then
`col-metric` per slot and metric. -/
def summary_columns (axis_map : List (String × String))
    (metric_types : List Metric) : List String :=
  "File" ::
    (axis_map.map (fun p =>
      metric_types.map (fun mt => p.2 ++ "-" ++ metricName mt))).flatten

/-- One iteration of the file loop of `preview_summary` (src lines 704-727):
skip files without a loaded table or without the chosen time column,
otherwise derive elapsed seconds, build the window mask and append the row. -/
noncomputable def preview_step (loaded_dfs : List (String × Table))
    (time_col : String) (axis_map : List (String × String))
    (metric_types : List Metric) (start_ end_ : Option ℚ)
    (rows : List (List SCell)) (f : String) : List (List SCell) :=
  match lookup_df loaded_dfs f with
  | none => rows
  | some df =>
    if df.hasCol time_col then
      let tsec := extract_datetime_col (df.getCol time_col)
      let mask := window_mask start_ end_ df.nrows tsec
      rows ++ [summary_row f df axis_map metric_types mask]
    else rows

/-- The summary computation of `preview_summary` (src lines 702-732), up to
the modal dialog that displays it: the summary rows and the column labels. -/
noncomputable def preview_summary (loaded_dfs : List (String × Table))
    (files : List String) (time_col : String)
    (axis_map : List (String × String)) (metric_types : List Metric)
    (start_ end_ : Option ℚ) : List (List SCell) × List String :=
  (files.foldl (preview_step loaded_dfs time_col axis_map metric_types start_ end_) [],
   summary_columns axis_map metric_types)

/-- One iteration of the file loop of `export_summary` (src lines 795-818),
textually identical to the `preview_summary` loop. -/
noncomputable def export_step (loaded_dfs : List (String × Table))
    (time_col : String) (axis_map : List (String × String))
    (metric_types : List Metric) (start_ end_ : Option ℚ)
    (rows : List (List SCell)) (f : String) : List (List SCell) :=
  match lookup_df loaded_dfs f with
  | none => rows
  | some df =>
    if df.hasCol time_col then
      let tsec := extract_datetime_col (df.getCol time_col)
      let mask := window_mask start_ end_ df.nrows tsec
      rows ++ [summary_row f df axis_map metric_types mask]
    else rows

/-- The summary computation of `export_summary` (src lines 783-822), up to
the file dialog and writer: the rows and column labels that populate the
exported `pd.DataFrame(summary_rows, columns=columns)`. -/
noncomputable def export_summary (loaded_dfs : List (String × Table))
    (files : List String) (time_col : String)
    (axis_map : List (String × String)) (metric_types : List Metric)
    (start_ end_ : Option ℚ) : List (List SCell) × List String :=
  (files.foldl (export_step loaded_dfs time_col axis_map metric_types start_ end_) [],
   summary_columns axis_map metric_types)

/-- A well-formed two-row tab-delimited table: a parseable `Time` column and
a numeric `RPM` column. -/
def tableA : Table :=
  { columns :=
      [("Time", [Cell.entry (some 0) (some 0), Cell.entry (some 1) (some 1)]),
       ("RPM", [Cell.entry none (some 1000), Cell.entry none (some 1200)])],
    nrows := 2 }

/-- A data file whose tab-delimited parse succeeds for every decimal
separator. -/
def fileA : SrcFile :=
  { name := "/data/A.txt",
    read_csv := fun _ => .ok tableA,
    read_sample := fun _ => .ok tableA }

/-- Claim C1: the spec says the load operation returns a mapping with a
parsed Table for each file whose tab-delimited parse succeeds, collecting
per-file errors without aborting. The code contradicts its own docstring:
`pd.read_csv(filepath, ...)` names the unbound `filepath` instead of the
loop variable `f`, so every file — including `fileA`, whose parse
succeeds — raises `NameError`, lands in the error list, and the returned
mapping is always empty. The intended per-file reading (the docstring's
behaviour) does load the file. -/
theorem c1_load_bug_eval :
    fileA.read_csv "." = Except.ok tableA
    ∧ load_selected_dataframes [fileA] "." =
        ([], ["A.txt: name filepath is not defined"])
    ∧ load_selected_dataframes_intended [fileA] "." =
        ([("/data/A.txt", tableA)], []) :=
  ⟨rfl, rfl, rfl⟩

/-- Claim C2 counterexample: starting from the single-slot initial state,
the fourth successive `add_axis_row` call is already rejected with the
capacity error (only three calls succeed, reaching the 4-slot maximum), so
"four successive addSlot calls all succeed" is false at the initial state. -/
theorem c2_counterexample :
    addChain init_axis_state 3 = Except.ok four_slot_state
    ∧ addChain init_axis_state 4 = Except.error ("Maximum 4 Y axes supported.") :=
  ⟨rfl, rfl⟩

/-- Claim C2 (amended): starting from one axis slot, three `add_axis_row`
calls succeed and reach the 4-slot state; every further call on a state
with at least four slots — in particular the fourth and fifth calls — is
rejected with the capacity error and produces no new state. -/
theorem c2_capacity_amended :
    addChain init_axis_state 3 = Except.ok four_slot_state
    ∧ four_slot_state.rowCount = 4
    ∧ (∀ st : AxisState, 4 ≤ st.rowCount →
        add_axis_row st = Except.error ("Maximum 4 Y axes supported.")) :=
  ⟨rfl, rfl, fun st h => by simp [add_axis_row, h]⟩

/-- Claim C2 witness: the amended statement applied to the concrete 4-slot
state. -/
theorem c2_capacity_amended_witness :
    add_axis_row four_slot_state = Except.error ("Maximum 4 Y axes supported.") :=
  c2_capacity_amended.2.2 four_slot_state (by decide)

/-- A time column with two parseable timestamps around one garbage row. -/
def c3_col : List Cell :=
  [Cell.entry (some 0) none, Cell.entry none none, Cell.entry (some 2) none]

/-- Claim C3 counterexample: on a column with timestamps at rows 0 and 2 and
an unparseable row 1, the claim predicts elapsed values `[0, missing, 2]`;
the code's `pd.to_datetime` raises on the bad row, so the whole column falls
back to numeric coercion and every row is missing. -/
theorem c3_counterexample :
    extract_datetime_col c3_col = [none, none, none]
    ∧ (decide (extract_datetime_col c3_col =
        ([some 0, none, some 2] : List (Option ℚ))) = false) := by
  decide

/-- Claim C3 (amended): a row whose non-missing value fails to parse as a
timestamp makes `pd.to_datetime` raise for the whole column, so the result
is the numeric coercion of every row (missing where numeric parsing fails);
the column still yields one value per row, but rows that did parse as
timestamps do not yield elapsed seconds. -/
theorem c3_fallback_amended (col : List Cell) (c : Cell) (hc : c ∈ col)
    (hbad : tsOkCell c = false) :
    extract_datetime_col col = col.map cellNum
    ∧ (extract_datetime_col col).length = col.length := by
  have hall : col.all tsOkCell = false := by
    cases h : col.all tsOkCell with
    | false => rfl
    | true =>
      have := List.all_eq_true.mp h c hc
      rw [hbad] at this
      cases this
  refine ⟨?_, ?_⟩ <;> simp [extract_datetime_col, hall]

/-- Claim C3 witness: the amended statement at the concrete column of the
counterexample. -/
theorem c3_fallback_amended_witness :
    extract_datetime_col c3_col = c3_col.map cellNum
    ∧ (extract_datetime_col c3_col).length = c3_col.length :=
  c3_fallback_amended c3_col (Cell.entry none none) (by decide) (by decide)

/-- Claim C6: a time-window bound is honored exactly when it parses as a
float — the returned bound is the `float(s)` outcome of the (stripped,
non-empty) bound string, and a bound whose float parse fails is absent even
when its `pd.to_datetime` parse succeeds. -/
theorem c6_window_numeric_only :
    ∀ s e : TimeStr,
      (get_time_window s e).1 =
        (match s with | .empty => none | .nonEmpty f _ => f)
      ∧ (get_time_window s e).2 =
        (match e with | .empty => none | .nonEmpty f _ => f)
      ∧ (∀ t : ℚ, (get_time_window (TimeStr.nonEmpty none (some t)) e).1 = none) := by
  intro s e
  refine ⟨?_, ?_, fun t => rfl⟩
  · cases s with
    | empty => rfl
    | nonEmpty f d => cases f <;> cases d <;> rfl
  · cases e with
    | empty => rfl
    | nonEmpty f d => cases f <;> cases d <;> rfl

/-- Claim C7: on a masked, coerced slice with exactly one non-missing value,
the sample standard deviation is missing while mean, median, min and max
all equal that value. -/
theorem c7_single_value_metrics (vals : List (Option ℚ)) (x : ℚ)
    (h : filterSome vals = [x]) :
    s_std vals = none ∧ s_mean vals = some x ∧ s_median vals = some x
    ∧ s_min vals = some x ∧ s_max vals = some x := by
  refine ⟨?_, ?_, ?_, ?_, ?_⟩
  · simp [s_std, h]
  · simp [s_mean, h]
  · simp [s_median, h, List.insertionSort, List.orderedInsert]
  · simp [s_min, h]
  · simp [s_max, h]

/-- Claim C7 witness: a concrete slice with one value and one missing entry. -/
theorem c7_single_value_metrics_witness :
    s_std [some (5 : ℚ), none] = none ∧ s_mean [some (5 : ℚ), none] = some 5
    ∧ s_median [some (5 : ℚ), none] = some 5
    ∧ s_min [some (5 : ℚ), none] = some 5
    ∧ s_max [some (5 : ℚ), none] = some 5 :=
  c7_single_value_metrics [some 5, none] 5 (by decide)

lemma mem_set_add (cols : List String) (a c : String) (h : c ∈ cols) :
    c ∈ set_add cols a := by
  unfold set_add
  split
  · exact h
  · exact List.mem_append_left _ h

lemma mem_col_fold (cols : List String) (c : String) (h : c ∈ cols)
    (L : List (String × List Cell)) :
    c ∈ L.foldl (fun cs p => if numeric_ok p.2 then set_add cs p.1 else cs) cols := by
  induction L generalizing cols with
  | nil => exact h
  | cons p t ih =>
    simp only [List.foldl_cons]
    apply ih
    split
    · exact mem_set_add _ _ _ h
    · exact h

lemma mem_file_numeric_fold (sep : String) (cols : List String) (c : String)
    (h : c ∈ cols) (f : SrcFile) : c ∈ file_numeric_fold sep cols f := by
  unfold file_numeric_fold
  cases f.read_sample sep with
  | error e => exact h
  | ok df => exact mem_col_fold _ _ h _

lemma mem_body_append (sep : String) (F : List SrcFile) (g : SrcFile) (c : String)
    (h : c ∈ unique_numeric_columns_body sep F) :
    c ∈ unique_numeric_columns_body sep (F ++ [g]) := by
  unfold unique_numeric_columns_body at h ⊢
  rw [List.mem_insertionSort] at h ⊢
  rw [List.foldl_append]
  simpa using mem_file_numeric_fold sep _ c h g

/-- Claim C4: the spec says `inferNumericColumns` is monotonic in the file
set with union semantics. The union loop of the source (lines 86-97) indeed
has that property — adding a file only adds columns — but it is dead code:
line 85 reads `self.decimal_sep_combo` with `self` unbound in the
module-level function, so every call raises `NameError` before reading any
file and never returns a column set. -/
theorem c4_infer_numeric_eval :
    (∀ files : List SrcFile, unique_numeric_columns files =
      Except.error ("NameError: name self is not defined"))
    ∧ (∀ (sep : String) (F : List SrcFile) (g : SrcFile),
        (unique_numeric_columns_body sep F).all
          (fun c => (unique_numeric_columns_body sep (F ++ [g])).contains c) = true) := by
  refine ⟨fun files => rfl, fun sep F g => ?_⟩
  rw [List.all_eq_true]
  intro c hc
  simpa using mem_body_append sep F g c hc

/-- A fully timestamp-parseable two-row time column. -/
def c5_col : List Cell := [Cell.entry (some 5) none, Cell.entry (some 8) none]

/-- Claim C5: when every non-missing value of a non-empty time column
parses as a timestamp, the normalization returns one elapsed value per row,
and when the first row's value itself parses the first elapsed value is 0. -/
theorem c5_normalize_length_zero (col : List Cell) (hne : col ≠ [])
    (hall : col.all tsOkCell = true) :
    (extract_datetime_col col).length = col.length
    ∧ (∀ q : ℚ, cellTs (col.headD Cell.missing) = some q →
        (extract_datetime_col col).headD none = some 0) := by
  cases col with
  | nil => exact absurd rfl hne
  | cons c cs =>
    constructor
    · simp [extract_datetime_col, hall]
    · intro q hq
      simp only [List.headD_cons] at hq
      simp [extract_datetime_col, hall, hq]

/-- Claim C5 witness: a concrete parseable column; the elapsed sequence has
the column's length and starts at 0. -/
theorem c5_normalize_witness :
    (extract_datetime_col c5_col).length = c5_col.length
    ∧ (extract_datetime_col c5_col).headD none = some 0 := by
  have h := c5_normalize_length_zero c5_col (by decide) (by decide)
  exact ⟨h.1, h.2 5 (by decide)⟩

lemma window_mask_cons (start_ end_ : Option ℚ) (t : Option ℚ)
    (ts : List (Option ℚ)) (n : ℕ) :
    window_mask start_ end_ (n + 1) (t :: ts) =
      inWindow start_ end_ t :: window_mask start_ end_ n ts := by
  cases start_ <;> cases end_ <;>
    simp [window_mask, inWindow, List.replicate_succ]

lemma window_mask_eq_map (start_ end_ : Option ℚ) (tsec : List (Option ℚ)) :
    window_mask start_ end_ tsec.length tsec = tsec.map (inWindow start_ end_) := by
  induction tsec with
  | nil => cases start_ <;> cases end_ <;> rfl
  | cons t ts ih => rw [List.length_cons, window_mask_cons, ih, List.map_cons]

/-- Claim C8: the inclusion mask of the summary loop includes a row exactly
when the start bound is absent or its elapsed value exists and is ≥ start,
and the end bound is absent or its elapsed value exists and is ≤ end; both
bounds are inclusive (≤/≥) and a missing elapsed value is excluded as soon
as either bound is present. -/
theorem c8_mask_inclusive_bounds :
    ∀ (start_ end_ : Option ℚ) (tsec : List (Option ℚ)),
      window_mask start_ end_ tsec.length tsec = tsec.map (inWindow start_ end_)
      ∧ (∀ t : Option ℚ, inWindow start_ end_ t = true ↔
          ((start_ = none ∨ ∃ s x, start_ = some s ∧ t = some x ∧ s ≤ x)
           ∧ (end_ = none ∨ ∃ e x, end_ = some e ∧ t = some x ∧ x ≤ e)))
      ∧ (∀ s e : ℚ, inWindow (some s) end_ none = false
          ∧ inWindow start_ (some e) none = false) := by
  intro start_ end_ tsec
  refine ⟨window_mask_eq_map _ _ _, fun t => ?_, fun s e => ⟨?_, ?_⟩⟩
  · cases start_ <;> cases end_ <;> cases t <;>
      simp [inWindow, geB, leB]
  · simp [inWindow, geB]
  · simp [inWindow, leB]

/-- Claim C9: on identical inputs (same loaded tables, selected files, time
column, axis bindings, metric list and window), the summary-preview
computation and the summary-export computation produce the same summary
rows and the same column labels. -/
theorem c9_preview_export_agree :
    ∀ (loaded_dfs : List (String × Table)) (files : List String)
      (time_col : String) (axis_map : List (String × String))
      (metric_types : List Metric) (start_ end_ : Option ℚ),
      preview_summary loaded_dfs files time_col axis_map metric_types start_ end_ =
        export_summary loaded_dfs files time_col axis_map metric_types start_ end_ :=
  fun _ _ _ _ _ _ _ => rfl

lemma sum_map_const {α : Type} (l : List α) (k : ℕ) :
    (l.map (fun _ => k)).sum = l.length * k := by
  induction l with
  | nil => simp
  | cons h t ih =>
    simp only [List.map_cons, List.sum_cons, List.length_cons, ih]
    rw [Nat.add_mul, Nat.one_mul, Nat.add_comm]

lemma slot_entries_length (df : Table) (mask : List Bool) (ms : List Metric)
    (col : String) : (slot_entries df mask ms col).length = ms.length := by
  simp [slot_entries]

lemma summary_row_length (f : String) (df : Table) (am : List (String × String))
    (ms : List Metric) (mask : List Bool) :
    (summary_row f df am ms mask).length = 1 + am.length * ms.length := by
  simp only [summary_row, List.length_cons, List.length_flatten, List.map_map]
  have hmap : am.map (List.length ∘ fun p => slot_entries df mask ms p.2)
      = am.map (fun _ => ms.length) :=
    List.map_congr_left (fun a _ => slot_entries_length df mask ms a.2)
  rw [hmap, sum_map_const, Nat.add_comm]

lemma summary_columns_length (am : List (String × String)) (ms : List Metric) :
    (summary_columns am ms).length = 1 + am.length * ms.length := by
  simp only [summary_columns, List.length_cons, List.length_flatten, List.map_map]
  have hmap : am.map (List.length ∘ fun p => ms.map fun mt => p.2 ++ "-" ++ metricName mt)
      = am.map (fun _ => ms.length) :=
    List.map_congr_left (fun a _ => by simp)
  rw [hmap, sum_map_const, Nat.add_comm]

lemma preview_step_shape (L : List (String × Table)) (tc : String)
    (am : List (String × String)) (ms : List Metric) (s_ e_ : Option ℚ)
    (rows : List (List SCell)) (f : String) :
    preview_step L tc am ms s_ e_ rows f =
      rows ++ preview_step L tc am ms s_ e_ [] f := by
  unfold preview_step
  cases lookup_df L f with
  | none => simp
  | some df => cases h : df.hasCol tc <;> simp [h]

lemma mem_preview_step_nil (L : List (String × Table)) (tc : String)
    (am : List (String × String)) (ms : List Metric) (s_ e_ : Option ℚ)
    (f : String) (r : List SCell)
    (h : r ∈ preview_step L tc am ms s_ e_ [] f) :
    ∃ df mask, r = summary_row f df am ms mask := by
  unfold preview_step at h
  cases hh : lookup_df L f with
  | none => rw [hh] at h; cases h
  | some df =>
    rw [hh] at h
    cases hc : df.hasCol tc with
    | false => simp [hc] at h
    | true =>
      simp only [hc, if_true, List.nil_append, List.mem_singleton] at h
      exact ⟨df, _, h⟩

lemma mem_preview_rows (L : List (String × Table)) (tc : String)
    (am : List (String × String)) (ms : List Metric) (s_ e_ : Option ℚ) :
    ∀ (files : List String) (init : List (List SCell)) (r : List SCell),
      r ∈ files.foldl (preview_step L tc am ms s_ e_) init →
      r ∈ init ∨ ∃ f df mask, r = summary_row f df am ms mask := by
  intro files
  induction files with
  | nil => intro init r h; exact Or.inl h
  | cons f fs ih =>
    intro init r h
    rw [List.foldl_cons] at h
    rcases ih _ r h with h' | h'
    · rw [preview_step_shape] at h'
      rcases List.mem_append.mp h' with h2 | h2
      · exact Or.inl h2
      · rcases mem_preview_step_nil L tc am ms s_ e_ f r h2 with ⟨df, mask, hr⟩
        exact Or.inr ⟨f, df, mask, hr⟩
    · exact Or.inr h'

lemma slot_entries_absent (df : Table) (mask : List Bool) (ms : List Metric)
    (col : String) (h : df.hasCol col = false) :
    slot_entries df mask ms col = List.replicate ms.length SCell.na := by
  simp only [slot_entries, h, Bool.false_eq_true, if_false]
  have hfun : (fun mt => metric_entry mt ([] : List (Option ℚ))) =
      fun _ : Metric => SCell.na := by
    funext mt; rfl
  rw [hfun, List.map_const']

/-- Claim C10: every summary row has one `File` entry plus one entry per
axis slot and requested metric, and the column-label list has the matching
length, regardless of which bound columns exist; a slot whose bound column
is absent from a table (in particular an empty binding, since `read_csv`
headers are never the empty string) contributes one missing entry per
metric. -/
theorem c10_row_shape :
    ∀ (loaded_dfs : List (String × Table)) (files : List String)
      (time_col : String) (axis_map : List (String × String))
      (metric_types : List Metric) (start_ end_ : Option ℚ),
      (∀ r ∈ (preview_summary loaded_dfs files time_col axis_map
          metric_types start_ end_).1,
        r.length = 1 + axis_map.length * metric_types.length)
      ∧ (preview_summary loaded_dfs files time_col axis_map
          metric_types start_ end_).2.length
          = 1 + axis_map.length * metric_types.length
      ∧ (∀ (df : Table) (mask : List Bool) (col : String),
          df.hasCol col = false →
          slot_entries df mask metric_types col
            = List.replicate metric_types.length SCell.na) := by
  intro L files tc am ms s_ e_
  refine ⟨fun r hr => ?_, summary_columns_length am ms,
    fun df mask col h => slot_entries_absent df mask ms col h⟩
  rcases mem_preview_rows L tc am ms s_ e_ files [] r hr with h | ⟨f, df, mask, rfl⟩
  · cases h
  · exact summary_row_length f df am ms mask

/-- A two-slot binding: one bound to `RPM`, one left empty. -/
def w_axis_map : List (String × String) := [("Primary Y", "RPM"), ("Secondary Y", "")]

/-- The single summary row the preview produces for `tableA` under
`w_axis_map` with metric `mean` and no window. -/
noncomputable def w_row : List SCell :=
  summary_row "/data/A.txt" tableA w_axis_map [Metric.mean]
    (window_mask none none tableA.nrows (extract_datetime_col (tableA.getCol "Time")))

/-- Claim C10 witness: the concrete preview row for `tableA` has
1 + 2 × 1 entries, and a slot bound to an absent column yields one missing
entry per metric. -/
theorem c10_row_shape_witness :
    w_row.length = 1 + w_axis_map.length * 1
    ∧ slot_entries tableA [] [Metric.mean] "Temp" = List.replicate 1 SCell.na := by
  have h := c10_row_shape [("/data/A.txt", tableA)] ["/data/A.txt"] "Time"
    w_axis_map [Metric.mean] none none
  refine ⟨h.1 w_row ?_, h.2.2 tableA [] "Temp" (by decide)⟩
  have heq : (preview_summary [("/data/A.txt", tableA)] ["/data/A.txt"] "Time"
      w_axis_map [Metric.mean] none none).1 = [w_row] := rfl
  rw [heq]
  exact List.mem_singleton_self w_row
